import Mathlib

/-!
Shallow embedding of the RevOps MCP gateway (mcp_server.py) and its
Salesforce helpers (salesforce_functions.py).

Python strings are modelled as `List Char`; `None`-able parameters as
`Option (List Char)`; Python dictionaries as partial maps
`String → Option Value`; exceptions as `Except PyExn`.  External calls
(Salesforce connection, SOQL queries, object creation) are modelled as
oracle arguments, and the sequence of external actions a function performs
is returned as an explicit trace so that claims of the form "no vendor
call is issued" are statable.
-/

namespace RevOps

/-! ### Python string primitives

`pyIsSpace` models the character class used by `str.strip()` / `str.split()`
(Python whitespace: ASCII space/tab/newline/CR/VT/FF, the C1 separators
\x1c-\x1f, NEL \x85, NBSP \xa0, and the Unicode space separators). -/

def pyIsSpace (c : Char) : Bool :=
  c = ' ' || c = '\t' || c = '\n' || c = '\x0d' || c = '\x0b' || c = '\x0c' ||
  (0x1c ≤ c.val && c.val ≤ 0x1f) || c.val = 0x85 || c.val = 0xa0 ||
  c.val = 0x1680 || (0x2000 ≤ c.val && c.val ≤ 0x200a) ||
  c.val = 0x2028 || c.val = 0x2029 || c.val = 0x202f || c.val = 0x205f ||
  c.val = 0x3000

/-- Python `str.strip()` with no argument: drop leading and trailing
whitespace. -/
def pyStrip (s : List Char) : List Char :=
  ((s.dropWhile pyIsSpace).reverse.dropWhile pyIsSpace).reverse

/-- Helper for `pySplit`: `acc` holds the current word reversed. -/
def pySplitAux : List Char → List Char → List (List Char)
  | [], acc => if acc.isEmpty then [] else [acc.reverse]
  | c :: rest, acc =>
    if pyIsSpace c then
      if acc.isEmpty then pySplitAux rest []
      else acc.reverse :: pySplitAux rest []
    else pySplitAux rest (c :: acc)

/-- Python `str.split()` with no argument: split on runs of whitespace,
discarding empty words. -/
def pySplit (s : List Char) : List (List Char) := pySplitAux s []

/-- Python `str.lower()`, restricted to the code points that can produce a
character of the ASCII comparison set used in `_normalize`: the ASCII
letters A-Z, plus U+212A KELVIN SIGN, the one non-ASCII code point whose
Python lowercase is a plain ASCII letter (k). Other characters are
returned unchanged, which agrees with Python on every string whose
lowercase could equal "bearer", "token" or "apikey". -/
def pyLowerChar (c : Char) : Char :=
  if 0x41 ≤ c.val && c.val ≤ 0x5a then Char.ofNat (c.toNat + 32)
  else if c.val = 0x212a then 'k'
  else c

def pyLower (s : List Char) : List Char := s.map pyLowerChar

/-- Python `str.isascii()`: every code point below 128. -/
def pyIsAscii (s : List Char) : Bool := s.all (fun c => c.val < 128)

/-! ### Python exceptions and values -/

inductive PyExn where
  /-- `TypeError`, e.g. raised by `secrets.compare_digest` on non-ASCII
  `str` arguments. -/
  | typeError (msg : String)
  /-- `KeyError`, e.g. from a missing mapping key. -/
  | keyError (key : String)
  /-- Any exception raised by a vendor SDK call (network failure,
  Salesforce fault, ...), identified by its message. -/
  | vendorError (msg : String)
deriving DecidableEq, Repr

/-- Python `str(e)` for a caught exception, used by
`log_sfdc_task`; modelled as the carried message/key. -/
def PyExn.message : PyExn → String
  | .typeError m => m
  | .keyError k => k
  | .vendorError m => m

/-- A Python value as far as the claims need to distinguish: a string, a
boolean, `None`, a nested dictionary, or some other opaque object. -/
inductive Value where
  | str (s : String)
  | bool (b : Bool)
  | pyNone
  | obj (tag : Nat)
deriving DecidableEq, Repr

/-- A Python dictionary with string keys: `none` means the key is absent
(`k not in d`), `some Value.pyNone` means the key is present with value
`None`. -/
def PyDict := String → Option Value

/-- `d[k] = v` on a dictionary. -/
def dictInsert (d : PyDict) (k : String) (v : Value) : PyDict :=
  fun k2 => if k2 = k then some v else d k2

/-- Build a dictionary from a list of key/value pairs (later pairs win,
as in a Python dict display with distinct keys). -/
def dictOf : List (String × Value) → PyDict
  | [] => fun _ => none
  | (k, v) :: rest => dictInsert (dictOf rest) k v

/-! ### `secrets.compare_digest`

On `str` arguments CPython requires both strings to be ASCII and raises
`TypeError` otherwise; on two ASCII strings it returns whether they are
equal (its constant-time execution is a physical property with no
functional content). -/

def compare_digest (a b : List Char) : Except PyExn Bool :=
  if pyIsAscii a && pyIsAscii b then .ok (a == b)
  else .error (.typeError "comparing strings with non-ASCII characters is not supported")

/-! ### StaticApiKeyAuth (mcp_server.py lines 27-58) -/

/-- The `AccessToken` constructed by `verify_token` on success. -/
structure AccessToken where
  token : List Char
  client_id : String
  scopes : List String
deriving DecidableEq, Repr

/-- `StaticApiKeyAuth._normalize`:

    if not token: return ""
    parts = token.strip().split()
    if len(parts) == 2 and parts[0].lower() in ("bearer", "token", "apikey"):
        return parts[1]
    return token.strip()
-/
def normalize (token : Option (List Char)) : List Char :=
  match token with
  | none => []
  | some t =>
    if t.isEmpty then []
    else
      match pySplit (pyStrip t) with
      | [w1, w2] =>
        if pyLower w1 == "bearer".toList || pyLower w1 == "token".toList ||
           pyLower w1 == "apikey".toList then w2
        else pyStrip t
      | _ => pyStrip t

/-- `StaticApiKeyAuth.verify_token` with the configured secret
`self.api_key` passed explicitly:

    presented = self._normalize(token)
    if presented and self.api_key and secrets.compare_digest(presented, self.api_key):
        return AccessToken(token=presented, client_id="revops-mcp-client", scopes=[])
    return None

The `and` chain short-circuits, so `compare_digest` (and hence its
possible `TypeError`) is reached only when both strings are non-empty. -/
def verify_token (api_key : List Char) (token : List Char) :
    Except PyExn (Option AccessToken) :=
  let presented := normalize (some token)
  if !presented.isEmpty && !api_key.isEmpty then
    match compare_digest presented api_key with
    | .error e => .error e
    | .ok true =>
      .ok (some { token := presented, client_id := "revops-mcp-client", scopes := [] })
    | .ok false => .ok none
  else .ok none

/-! ### Salesforce helpers (salesforce_functions.py) -/

/-- One external Salesforce action performed by a helper, recorded in
order: constructing a connection (`sfdc_connection()`), or issuing a SOQL
query against Contact or Lead (carrying the query string). -/
inductive SFAction where
  | connect
  | queryContact (soql : List Char)
  | queryLead (soql : List Char)
deriving DecidableEq, Repr

/-- A record as returned inside a `simple_salesforce` query result:
`Id` is always present; `FirstName` may be absent. -/
structure SFRecord where
  id : String
  firstName : Option String
deriving DecidableEq, Repr

/-- A `sf.query(...)` result: a mapping that normally carries a
`records` key holding a list (`none` models an absent key, so that the
`.get` access in the source is embeddable faithfully). -/
structure QueryResult where
  records : Option (List SFRecord)
deriving DecidableEq, Repr

/-- The truthiness test the source applies to a query result: the
records key is present, its value is truthy, and its length is positive
(which collapses to: present and non-empty). -/
def hasRecords (q : QueryResult) : Bool :=
  match q.records with
  | some l => !l.isEmpty
  | none => false

/-- Oracle for the Salesforce backend: the result each SOQL query would
return. Keyed by the full query string the code builds. -/
structure SFOracle where
  contactResult : List Char → QueryResult
  leadResult : List Char → QueryResult

/-- The dictionary `find_contact_or_lead` returns on a hit:
a mapping with keys type, id and first_name. -/
structure FoundPerson where
  type : String
  id : String
  first_name : String
deriving DecidableEq, Repr

/-- Truthiness of an optional-string parameter conjoined with its strip:
`if email and email.strip():`. -/
def providedArg (s : Option (List Char)) : Bool :=
  match s with
  | none => false
  | some t => !t.isEmpty && !(pyStrip t).isEmpty

/-- The `conditions` list built by `find_contact_or_lead` (lines 35-39):
one equality clause per non-blank argument, email first. `Char.ofNat 39`
is the single-quote character of the SOQL string literal. -/
def sfConditions (email phone : Option (List Char)) : List (List Char) :=
  (if providedArg email then
    [("Email = ".toList ++ [Char.ofNat 39] ++ pyStrip (email.getD []) ++
      [Char.ofNat 39])]
   else []) ++
  (if providedArg phone then
    [("Phone = ".toList ++ [Char.ofNat 39] ++ pyStrip (phone.getD []) ++
      [Char.ofNat 39])]
   else [])

/-- `where_clause = " OR ".join(conditions)` (line 45). -/
def whereClauseOf (email phone : Option (List Char)) : List Char :=
  ((sfConditions email phone).intersperse " OR ".toList).flatten

/-- The `contact_query` string of line 51. -/
def contact_query (email phone : Option (List Char)) : List Char :=
  "SELECT Id, Email, FirstName FROM Contact WHERE ".toList ++
    whereClauseOf email phone ++ " LIMIT 1".toList

/-- The `lead_query` string of line 63. -/
def lead_query (email phone : Option (List Char)) : List Char :=
  "SELECT Id, Email, FirstName FROM Lead WHERE ".toList ++
    whereClauseOf email phone ++ " LIMIT 1".toList

/-- `find_contact_or_lead(email, phone)`, lines 20-75: build WHERE
conditions from the non-blank arguments; return `None` before any vendor
interaction when there are none; otherwise connect, query Contact first,
and query Lead only if the Contact query returned no records.  The second
component is the trace of external actions, in order. -/
def find_contact_or_lead (sf : SFOracle) (email phone : Option (List Char)) :
    Option FoundPerson × List SFAction :=
  if (sfConditions email phone).isEmpty then (none, [])
  else
    let contacts := sf.contactResult (contact_query email phone)
    if hasRecords contacts then
      let contact := ((contacts.records.getD []).headD ⟨"", none⟩)
      (some { type := "contact", id := contact.id,
              first_name := contact.firstName.getD "" },
       [.connect, .queryContact (contact_query email phone)])
    else
      let leads := sf.leadResult (lead_query email phone)
      if hasRecords leads then
        let lead := ((leads.records.getD []).headD ⟨"", none⟩)
        (some { type := "lead", id := lead.id,
                first_name := lead.firstName.getD "" },
         [.connect, .queryContact (contact_query email phone),
          .queryLead (lead_query email phone)])
      else
        (none, [.connect, .queryContact (contact_query email phone),
                .queryLead (lead_query email phone)])

/-- `create_lead(fields)`, lines 77-84.  `conn` is the outcome of
`sfdc_connection()` (which can raise); `leadCreate` is the vendor
`sf.Lead.create` call, receiving the dictionary the code forwards.  The
second component is the caller-visible dictionary after the call (the
code mutates `fields` in place before connecting). -/
def create_lead (conn : Except PyExn Unit) (leadCreate : PyDict → Except PyExn Value)
    (fields : PyDict) : Except PyExn Value × PyDict :=
  let fields1 :=
    if fields "LastName" = none then dictInsert fields "LastName" (.str "Unknown")
    else fields
  let fields2 :=
    if fields1 "Company" = none then dictInsert fields1 "Company" (.str "Unknown")
    else fields1
  match conn with
  | .error e => (.error e, fields2)
  | .ok _ => (leadCreate fields2, fields2)

/-- The `task_fields` dictionary `log_sfdc_task` builds and forwards to
`sf.Task.create`. -/
def task_fields (today person_id subject body direction : String) : PyDict :=
  dictOf
    [("RecordTypeId", .str "012f100000116jjAAA"),
     ("WhoId", .str person_id),
     ("Subject", .str subject),
     ("ActivityDate", .str today),
     ("Status", .str "Completed"),
     ("OwnerId", .str "005Qk000001pqtdIAA"),
     ("Description", .str body),
     ("Type", .str "Call"),
     ("TaskSubType", .str "Call"),
     ("Task_Direction__c", .str direction)]

/-- `log_sfdc_task(person_id, subject, body, direction)`, lines 86-127.
`conn` is the outcome of `sf = sfdc_connection()`, evaluated BEFORE the
`try` block; `taskCreate` is `sf.Task.create`, returning the vendor
response dictionary; `today` is the formatted `datetime.now()` value.
Only exceptions raised inside the `try` block (the create call and the
id lookup on the response) are reshaped into a failure dictionary with
success set to False; the connection step precedes the `try` block. -/
def log_sfdc_task (conn : Except PyExn Unit)
    (taskCreate : PyDict → Except PyExn PyDict) (today : String)
    (person_id subject body : String) (direction : String := "Inbound") :
    Except PyExn PyDict :=
  match conn with
  | .error e => .error e
  | .ok _ =>
    match taskCreate (task_fields today person_id subject body direction) with
    | .ok response =>
      match response "id" with
      | some v => .ok (dictOf [("success", .bool true), ("id", v)])
      | none =>
        .ok (dictOf [("success", .bool false),
                     ("error", .str (PyExn.keyError "id").message)])
    | .error e =>
      .ok (dictOf [("success", .bool false), ("error", .str e.message)])

/-! ### Gateway tool and custom routes (mcp_server.py) -/

/-- What the `find_salesforce_contact_or_lead` tool returns: either the
lookup record passed through, or an error mapping. -/
inductive FindToolResult where
  | record (r : FoundPerson)
  | errorDict (msg : String)
deriving DecidableEq, Repr

/-- Tool `find_salesforce_contact_or_lead` (lines 214-231):

    result = salesforce_functions.find_contact_or_lead(email, phone)
    return result if result else {"error": "Not found"}

(a hit dictionary always has three entries, so it is truthy; `None` is
falsy). -/
def find_salesforce_contact_or_lead (sf : SFOracle)
    (email phone : Option (List Char)) : FindToolResult × List SFAction :=
  let result := find_contact_or_lead sf email phone
  (match result.1 with
   | some r => .record r
   | none => .errorDict "Not found",
   result.2)

/-- An inbound HTTP request as far as the custom routes can observe it. -/
structure Request where
  path : String
  authorization : Option (List Char)
deriving DecidableEq, Repr

/-- A response from a custom route. -/
inductive HttpResponse where
  | jsonBody (entries : List (String × String))
  | textBody (body : String)
deriving DecidableEq, Repr

/-- `GET /health` handler (lines 75-78): `JSONResponse({"status": "ok"})`,
with its (empty) trace of Salesforce actions. -/
def health (_request : Request) : HttpResponse × List SFAction :=
  (.jsonBody [("status", "ok")], [])

/-- `GET /info` handler (lines 71-73): a fixed plain-text response, with
its (empty) trace of Salesforce actions. -/
def mcp_info (_request : Request) : HttpResponse × List SFAction :=
  (.textBody "RevOps MCP Server - MCP endpoint is at / (POST/SSE).", [])

/-! ## Theorems -/

/-- C2: `_normalize` returns the empty string on `None` or empty input;
the second word when the trimmed input splits into exactly two
whitespace-separated words whose first word lowercases to "bearer",
"token" or "apikey"; and the whole trimmed input in every other case.
In particular "Bearer abc", "Token abc", "ApiKey abc" and "abc" all
normalize to "abc", while "abc def" normalizes to "abc def". -/
theorem normalize_characterization :
    normalize none = [] ∧ normalize (some []) = [] ∧
    (∀ t w1 w2, pySplit (pyStrip t) = [w1, w2] →
      (pyLower w1 = "bearer".toList ∨ pyLower w1 = "token".toList ∨
       pyLower w1 = "apikey".toList) →
      normalize (some t) = w2) ∧
    (∀ t, (∀ w1 w2, pySplit (pyStrip t) = [w1, w2] →
        pyLower w1 ≠ "bearer".toList ∧ pyLower w1 ≠ "token".toList ∧
        pyLower w1 ≠ "apikey".toList) →
      normalize (some t) = pyStrip t) ∧
    normalize (some "Bearer abc".toList) = "abc".toList ∧
    normalize (some "Token abc".toList) = "abc".toList ∧
    normalize (some "ApiKey abc".toList) = "abc".toList ∧
    normalize (some "abc".toList) = "abc".toList ∧
    normalize (some "abc def".toList) = "abc def".toList := by
  refine ⟨rfl, rfl, ?_, ?_, rfl, rfl, rfl, rfl, rfl⟩
  · intro t w1 w2 hsplit hrec
    cases t with
    | nil =>
      exact List.noConfusion
        (hsplit.symm.trans (show pySplit (pyStrip []) = [] from rfl))
    | cons c rest =>
      simp only [normalize]
      rw [hsplit]
      rcases hrec with h | h | h <;> simp [h]
  · intro t hno
    cases t with
    | nil => rfl
    | cons c rest =>
      simp only [normalize]
      match hsplit : pySplit (pyStrip (c :: rest)) with
      | [] => simp
      | [w] => simp
      | [w1, w2] =>
        have h3 := hno w1 w2 hsplit
        simp only [List.isEmpty_cons, Bool.false_eq_true, if_false]
        simp
        rintro ((h | h) | h)
        · exact absurd h (by simpa using h3.1)
        · exact absurd h (by simpa using h3.2.1)
        · exact absurd h (by simpa using h3.2.2)
      | w1 :: w2 :: w3 :: ws => simp

/-- C2 witness: the characterization applied at the concrete input
"Bearer abc". -/
theorem normalize_characterization_witness :
    normalize (some "Bearer abc".toList) = "abc".toList :=
  normalize_characterization.2.2.1 "Bearer abc".toList "Bearer".toList "abc".toList
    (by decide) (Or.inl (by decide))

/-- Whether an `Except` computation returned normally (did not raise). -/
def isOkE {α : Type} : Except PyExn α → Bool
  | .ok _ => true
  | .error _ => false

/-- C1 counterexample: with configured secret "s" and presented value
"café" (normalized candidate "café", non-empty; secret non-empty; the
two differ), `verify_token` does not reject by returning `None`: it
propagates the `TypeError` that `secrets.compare_digest` raises on
non-ASCII `str` arguments. -/
theorem verify_token_nonascii_counterexample :
    verify_token "s".toList "café".toList =
      Except.error (PyExn.typeError
        "comparing strings with non-ASCII characters is not supported") ∧
    isOkE (verify_token "s".toList "café".toList) = false ∧
    normalize (some "café".toList) = "café".toList := ⟨rfl, rfl, rfl⟩

/-- C1 (amended): when the normalized candidate and the configured
secret are both ASCII-only strings, `verify_token` admits the request
(returns an `AccessToken` carrying the candidate) if and only if the
candidate is non-empty, the secret is non-empty, and the two are equal;
in every other ASCII case (mismatch, empty candidate, or empty secret)
it rejects by returning `None`.  When the candidate and secret are both
non-empty and either contains a non-ASCII character, `verify_token`
instead propagates the `TypeError` raised by `secrets.compare_digest`. -/
theorem verify_token_characterization (api_key t : List Char) :
    ((normalize (some t)).isEmpty = true ∨ api_key.isEmpty = true →
      verify_token api_key t = Except.ok none) ∧
    ((normalize (some t)).isEmpty = false → api_key.isEmpty = false →
      pyIsAscii (normalize (some t)) = true → pyIsAscii api_key = true →
      verify_token api_key t =
        Except.ok (if normalize (some t) = api_key then
          some { token := normalize (some t), client_id := "revops-mcp-client",
                 scopes := [] }
        else none)) ∧
    ((normalize (some t)).isEmpty = false → api_key.isEmpty = false →
      (pyIsAscii (normalize (some t)) = false ∨ pyIsAscii api_key = false) →
      verify_token api_key t =
        Except.error (PyExn.typeError
          "comparing strings with non-ASCII characters is not supported")) ∧
    (pyIsAscii (normalize (some t)) = true → pyIsAscii api_key = true →
      ((∃ a, verify_token api_key t = Except.ok (some a)) ↔
        ((normalize (some t)).isEmpty = false ∧ api_key.isEmpty = false ∧
         normalize (some t) = api_key))) := by
  have hA : (normalize (some t)).isEmpty = true ∨ api_key.isEmpty = true →
      verify_token api_key t = Except.ok none := by
    intro h
    rcases h with h | h <;> simp [verify_token, h]
  have hB : (normalize (some t)).isEmpty = false → api_key.isEmpty = false →
      pyIsAscii (normalize (some t)) = true → pyIsAscii api_key = true →
      verify_token api_key t =
        Except.ok (if normalize (some t) = api_key then
          some { token := normalize (some t), client_id := "revops-mcp-client",
                 scopes := [] }
        else none) := by
    intro h1 h2 ha hb
    by_cases heq : normalize (some t) = api_key
    · simp [verify_token, compare_digest, h1, h2, ha, hb, heq]
    · have hf : (normalize (some t) == api_key) = false :=
        beq_eq_false_iff_ne.mpr heq
      simp [verify_token, compare_digest, h1, h2, ha, hb, heq, hf]
  have hC : (normalize (some t)).isEmpty = false → api_key.isEmpty = false →
      (pyIsAscii (normalize (some t)) = false ∨ pyIsAscii api_key = false) →
      verify_token api_key t =
        Except.error (PyExn.typeError
          "comparing strings with non-ASCII characters is not supported") := by
    intro h1 h2 h3
    rcases h3 with h3 | h3 <;> simp [verify_token, compare_digest, h1, h2, h3]
  refine ⟨hA, hB, hC, ?_⟩
  intro ha hb
  constructor
  · rintro ⟨a, hok⟩
    by_cases h1 : (normalize (some t)).isEmpty = true
    · rw [hA (Or.inl h1)] at hok; simp at hok
    · by_cases h2 : api_key.isEmpty = true
      · rw [hA (Or.inr h2)] at hok; simp at hok
      · have h1f : (normalize (some t)).isEmpty = false := by
          simpa using h1
        have h2f : api_key.isEmpty = false := by simpa using h2
        by_cases heq : normalize (some t) = api_key
        · exact ⟨h1f, h2f, heq⟩
        · rw [hB h1f h2f ha hb, if_neg heq] at hok; simp at hok
  · rintro ⟨h1, h2, heq⟩
    refine ⟨{ token := normalize (some t), client_id := "revops-mcp-client",
              scopes := [] }, ?_⟩
    rw [hB h1 h2 ha hb, if_pos heq]

/-- C1 witness: the amended characterization applied with secret
"secret123" and presented value "Bearer secret123" admits the request. -/
theorem verify_token_characterization_witness :
    verify_token "secret123".toList "Bearer secret123".toList =
      Except.ok (some { token := "secret123".toList,
                        client_id := "revops-mcp-client", scopes := [] }) := by
  have h := (verify_token_characterization "secret123".toList
      "Bearer secret123".toList).2.1 (by decide) (by decide) (by decide) (by decide)
  exact h.trans (by rfl)

/-- C4 counterexample: when `sfdc_connection()` raises (for instance an
invalid-login failure, or a missing environment variable), the exception
escapes `log_sfdc_task`, because the connection is constructed before
the `try` block: the function does not always return a dictionary. -/
theorem log_sfdc_task_counterexample :
    log_sfdc_task (Except.error (PyExn.vendorError "INVALID_LOGIN"))
        (fun _ => Except.ok (dictOf [("id", Value.str "00T000000000001")]))
        "2026-10-12" "00Q5e000001ABC123" "Follow-up call scheduled"
        "Discussed pricing options." "Outbound" =
      Except.error (PyExn.vendorError "INVALID_LOGIN") ∧
    isOkE (log_sfdc_task (Except.error (PyExn.vendorError "INVALID_LOGIN"))
        (fun _ => Except.ok (dictOf [("id", Value.str "00T000000000001")]))
        "2026-10-12" "00Q5e000001ABC123" "Follow-up call scheduled"
        "Discussed pricing options." "Outbound") = false := ⟨rfl, rfl⟩

/-- C4 (amended): provided the Salesforce connection construction (which
precedes the `try` block) does not raise, `log_sfdc_task` returns a
dictionary and never raises: a success dictionary carrying the vendor id
when the vendor Task-create call succeeds, and a failure dictionary
carrying the message when the vendor call raises.  An exception raised
while constructing the connection propagates to the caller unreshaped. -/
theorem log_sfdc_task_characterization
    (taskCreate : PyDict → Except PyExn PyDict)
    (today person_id subject body direction : String) :
    (isOkE (log_sfdc_task (Except.ok ()) taskCreate today person_id subject
        body direction) = true) ∧
    (∀ response idv,
      taskCreate (task_fields today person_id subject body direction) =
        Except.ok response →
      response "id" = some idv →
      log_sfdc_task (Except.ok ()) taskCreate today person_id subject body
          direction =
        Except.ok (dictOf [("success", .bool true), ("id", idv)])) ∧
    (∀ e,
      taskCreate (task_fields today person_id subject body direction) =
        Except.error e →
      log_sfdc_task (Except.ok ()) taskCreate today person_id subject body
          direction =
        Except.ok (dictOf [("success", .bool false),
                           ("error", .str e.message)])) ∧
    (∀ e, log_sfdc_task (Except.error e) taskCreate today person_id subject
        body direction = Except.error e) := by
  refine ⟨?_, ?_, ?_, fun e => rfl⟩
  · cases hc : taskCreate (task_fields today person_id subject body direction) with
    | ok response =>
      cases hid : response "id" with
      | some v => simp [log_sfdc_task, hc, hid, isOkE]
      | none => simp [log_sfdc_task, hc, hid, isOkE]
    | error e => simp [log_sfdc_task, hc, isOkE]
  · intro response idv hcreate hid
    simp [log_sfdc_task, hcreate, hid]
  · intro e hcreate
    simp [log_sfdc_task, hcreate]

/-- C4 witness: the amended characterization applied with a vendor call
that succeeds with id "00T000000000001". -/
theorem log_sfdc_task_characterization_witness :
    log_sfdc_task (Except.ok ())
        (fun _ => Except.ok (dictOf [("id", Value.str "00T000000000001")]))
        "2026-10-12" "00Q5e000001XYZ789" "MCP Test Task" "Task body"
        "Inbound" =
      Except.ok (dictOf [("success", .bool true),
                         ("id", Value.str "00T000000000001")]) :=
  (log_sfdc_task_characterization
      (fun _ => Except.ok (dictOf [("id", Value.str "00T000000000001")]))
      "2026-10-12" "00Q5e000001XYZ789" "MCP Test Task" "Task body"
      "Inbound").2.1
    (dictOf [("id", Value.str "00T000000000001")]) (Value.str "00T000000000001")
    rfl (by decide)

/-- C5: when both the email and the phone argument are `None`, empty, or
whitespace-only (so that stripping leaves nothing), `find_contact_or_lead`
returns the not-found sentinel `None` with an empty trace of external
actions: no Salesforce connection is constructed and no query is issued. -/
theorem find_contact_or_lead_blank (sf : SFOracle)
    (email phone : Option (List Char))
    (he : ∀ t, email = some t → pyStrip t = [])
    (hp : ∀ t, phone = some t → pyStrip t = []) :
    find_contact_or_lead sf email phone = (none, []) := by
  have hpe : providedArg email = false := by
    cases email with
    | none => rfl
    | some t =>
      have := he t rfl
      simp [providedArg, this]
  have hpp : providedArg phone = false := by
    cases phone with
    | none => rfl
    | some t =>
      have := hp t rfl
      simp [providedArg, this]
  simp [find_contact_or_lead, sfConditions, hpe, hpp]

/-- C5 witness: a whitespace-only email together with a missing phone is
rejected before any vendor interaction, for a concrete oracle. -/
theorem find_contact_or_lead_blank_witness :
    find_contact_or_lead
        ⟨fun _ => ⟨some [⟨"003XX000004TmiQYAS", some "John"⟩]⟩,
         fun _ => ⟨some [⟨"00QXX000004TmiQYAS", some "Jane"⟩]⟩⟩
        (some "   ".toList) none = (none, []) :=
  find_contact_or_lead_blank _ (some "   ".toList) none
    (fun t h => by cases h; decide) (fun t h => Option.noConfusion h)

/-- C6: the record `create_lead` forwards to the vendor Lead-create call
is exactly the caller-visible post-call dictionary; it carries
`LastName = "Unknown"` when the input had no `LastName` key and
`Company = "Unknown"` when the input had no `Company` key, while every
key present in the input keeps its given value. -/
theorem create_lead_forwarded (leadCreate : PyDict → Except PyExn Value)
    (fields : PyDict) :
    ((create_lead (Except.ok ()) leadCreate fields).1 =
      leadCreate ((create_lead (Except.ok ()) leadCreate fields).2)) ∧
    (fields "LastName" = none →
      (create_lead (Except.ok ()) leadCreate fields).2 "LastName" =
        some (Value.str "Unknown")) ∧
    (fields "Company" = none →
      (create_lead (Except.ok ()) leadCreate fields).2 "Company" =
        some (Value.str "Unknown")) ∧
    (∀ k v, fields k = some v →
      (create_lead (Except.ok ()) leadCreate fields).2 k = some v) := by
  refine ⟨rfl, ?_, ?_, ?_⟩
  · intro h
    by_cases hc : fields "Company" = none <;>
      simp [create_lead, dictInsert, h, hc]
  · intro h
    by_cases hl : fields "LastName" = none <;>
      simp [create_lead, dictInsert, h, hl]
  · intro k v hkv
    by_cases hl : fields "LastName" = none <;>
    by_cases hc : fields "Company" = none <;>
    by_cases hk1 : k = "LastName" <;>
    by_cases hk2 : k = "Company" <;>
      simp_all [create_lead, dictInsert]

/-- C6 witness: creating a lead from a dictionary holding only an email
defaults both `LastName` and `Company` to "Unknown" and keeps the email. -/
theorem create_lead_forwarded_witness :
    ((create_lead (Except.ok ()) (fun _ => Except.ok (Value.str "ok"))
        (dictOf [("Email", Value.str "john@example.com")])).2 "LastName" =
      some (Value.str "Unknown")) ∧
    ((create_lead (Except.ok ()) (fun _ => Except.ok (Value.str "ok"))
        (dictOf [("Email", Value.str "john@example.com")])).2 "Company" =
      some (Value.str "Unknown")) ∧
    ((create_lead (Except.ok ()) (fun _ => Except.ok (Value.str "ok"))
        (dictOf [("Email", Value.str "john@example.com")])).2 "Email" =
      some (Value.str "john@example.com")) :=
  ⟨(create_lead_forwarded (fun _ => Except.ok (Value.str "ok"))
      (dictOf [("Email", Value.str "john@example.com")])).2.1 (by decide),
   (create_lead_forwarded (fun _ => Except.ok (Value.str "ok"))
      (dictOf [("Email", Value.str "john@example.com")])).2.2.1 (by decide),
   (create_lead_forwarded (fun _ => Except.ok (Value.str "ok"))
      (dictOf [("Email", Value.str "john@example.com")])).2.2.2 "Email"
      (Value.str "john@example.com") (by decide)⟩

/-- C9: `create_lead` mutates the caller-supplied dictionary in place
(modelled by returning the post-call state of that dictionary): after the
call — whatever the connection outcome, since the mutation precedes the
connection — the dictionary contains the keys `LastName` and `Company`,
set to "Unknown" exactly where they were absent before and kept at their
prior values where present, and every other key is left unchanged. -/
theorem create_lead_mutation (conn : Except PyExn Unit)
    (leadCreate : PyDict → Except PyExn Value) (fields : PyDict) :
    ((create_lead conn leadCreate fields).2 "LastName" ≠ none) ∧
    ((create_lead conn leadCreate fields).2 "Company" ≠ none) ∧
    (fields "LastName" = none →
      (create_lead conn leadCreate fields).2 "LastName" =
        some (Value.str "Unknown")) ∧
    (fields "Company" = none →
      (create_lead conn leadCreate fields).2 "Company" =
        some (Value.str "Unknown")) ∧
    (∀ v, fields "LastName" = some v →
      (create_lead conn leadCreate fields).2 "LastName" = some v) ∧
    (∀ v, fields "Company" = some v →
      (create_lead conn leadCreate fields).2 "Company" = some v) ∧
    (∀ k, k ≠ "LastName" → k ≠ "Company" →
      (create_lead conn leadCreate fields).2 k = fields k) := by
  have hsnd : (create_lead conn leadCreate fields).2 =
      (let fields1 :=
        if fields "LastName" = none then
          dictInsert fields "LastName" (Value.str "Unknown") else fields
      if fields1 "Company" = none then
        dictInsert fields1 "Company" (Value.str "Unknown") else fields1) := by
    cases conn <;> rfl
  rw [hsnd]
  by_cases hl : fields "LastName" = none <;>
  by_cases hc : fields "Company" = none <;>
    refine ⟨?_, ?_, ?_, ?_, ?_, ?_, fun k hk1 hk2 => ?_⟩ <;>
      simp_all [dictInsert]

/-- C9 witness: the mutation property applied to a dictionary already
holding `LastName` and a `FirstName`, with no `Company`. -/
theorem create_lead_mutation_witness :
    ((create_lead (Except.ok ()) (fun _ => Except.ok (Value.str "ok"))
        (dictOf [("FirstName", Value.str "John"),
                 ("LastName", Value.str "Smith")])).2 "LastName" =
      some (Value.str "Smith")) ∧
    ((create_lead (Except.ok ()) (fun _ => Except.ok (Value.str "ok"))
        (dictOf [("FirstName", Value.str "John"),
                 ("LastName", Value.str "Smith")])).2 "Company" =
      some (Value.str "Unknown")) ∧
    ((create_lead (Except.ok ()) (fun _ => Except.ok (Value.str "ok"))
        (dictOf [("FirstName", Value.str "John"),
                 ("LastName", Value.str "Smith")])).2 "FirstName" =
      some (Value.str "John")) :=
  ⟨(create_lead_mutation (Except.ok ()) (fun _ => Except.ok (Value.str "ok"))
      (dictOf [("FirstName", Value.str "John"),
               ("LastName", Value.str "Smith")])).2.2.2.2.1
    (Value.str "Smith") (by decide),
   (create_lead_mutation (Except.ok ()) (fun _ => Except.ok (Value.str "ok"))
      (dictOf [("FirstName", Value.str "John"),
               ("LastName", Value.str "Smith")])).2.2.2.1 (by decide),
   ((create_lead_mutation (Except.ok ()) (fun _ => Except.ok (Value.str "ok"))
      (dictOf [("FirstName", Value.str "John"),
               ("LastName", Value.str "Smith")])).2.2.2.2.2.2 "FirstName"
    (by decide) (by decide)).trans (by decide)⟩

/-- C7: the gateway tool `find_salesforce_contact_or_lead` maps the
sentinel `None` of the underlying lookup to the mapping
`{"error": "Not found"}`, passes a match record through unchanged, and
adds no external action of its own. -/
theorem find_tool_mapping (sf : SFOracle) (email phone : Option (List Char)) :
    ((find_contact_or_lead sf email phone).1 = none →
      (find_salesforce_contact_or_lead sf email phone).1 =
        FindToolResult.errorDict "Not found") ∧
    (∀ r, (find_contact_or_lead sf email phone).1 = some r →
      (find_salesforce_contact_or_lead sf email phone).1 =
        FindToolResult.record r) ∧
    ((find_salesforce_contact_or_lead sf email phone).2 =
      (find_contact_or_lead sf email phone).2) := by
  refine ⟨?_, ?_, rfl⟩
  · intro h
    simp [find_salesforce_contact_or_lead, h]
  · intro r h
    simp [find_salesforce_contact_or_lead, h]

/-- C7 witness: with an oracle returning no records at all, the tool
returns the "Not found" error mapping for a concrete email lookup. -/
theorem find_tool_mapping_witness :
    (find_salesforce_contact_or_lead ⟨fun _ => ⟨some []⟩, fun _ => ⟨some []⟩⟩
        (some "nobody@example.com".toList) none).1 =
      FindToolResult.errorDict "Not found" :=
  (find_tool_mapping ⟨fun _ => ⟨some []⟩, fun _ => ⟨some []⟩⟩
      (some "nobody@example.com".toList) none).1 (by decide)

/-- C8: the `/health` handler returns the fixed JSON body
`{"status": "ok"}` and the `/info` handler returns a fixed text body, on
every request; both are constant in the request — so in particular they
do not depend on any presented credential — and both perform no
Salesforce action. -/
theorem health_info_fixed (r r2 : Request) :
    health r = (HttpResponse.jsonBody [("status", "ok")], []) ∧
    mcp_info r =
      (HttpResponse.textBody
        "RevOps MCP Server - MCP endpoint is at / (POST/SSE).", []) ∧
    health r = health r2 ∧
    mcp_info r = mcp_info r2 ∧
    (health r).2 = [] ∧
    (mcp_info r).2 = [] :=
  ⟨rfl, rfl, rfl, rfl, rfl, rfl⟩

/-- C10: when at least one search criterion is non-blank,
`find_contact_or_lead` connects and issues the Contact query first; if
that query returns at least one record it answers with a
`type = "contact"` result and never issues the Lead query; the Lead
query is issued exactly when the Contact query returns no records, a
`type = "lead"` result is answered when the Lead query has records, and
`None` is answered when both queries return no records. -/
theorem find_contact_or_lead_precedence (sf : SFOracle)
    (email phone : Option (List Char))
    (h : providedArg email = true ∨ providedArg phone = true) :
    (hasRecords (sf.contactResult (contact_query email phone)) = true →
      (∃ r, (find_contact_or_lead sf email phone).1 = some r ∧
        r.type = "contact") ∧
      (find_contact_or_lead sf email phone).2 =
        [SFAction.connect,
         SFAction.queryContact (contact_query email phone)]) ∧
    (hasRecords (sf.contactResult (contact_query email phone)) = false →
      (find_contact_or_lead sf email phone).2 =
        [SFAction.connect, SFAction.queryContact (contact_query email phone),
         SFAction.queryLead (lead_query email phone)] ∧
      (hasRecords (sf.leadResult (lead_query email phone)) = true →
        ∃ r, (find_contact_or_lead sf email phone).1 = some r ∧
          r.type = "lead") ∧
      (hasRecords (sf.leadResult (lead_query email phone)) = false →
        (find_contact_or_lead sf email phone).1 = none)) := by
  have hcond : (sfConditions email phone).isEmpty = false := by
    rcases h with h | h <;> simp [sfConditions, h]
  refine ⟨?_, ?_⟩
  · intro hhit
    constructor
    · have h1 : (find_contact_or_lead sf email phone).1 =
          some { type := "contact",
                 id := (((sf.contactResult (contact_query email phone)).records.getD
                   []).headD ⟨"", none⟩).id,
                 first_name := (((sf.contactResult (contact_query email
                   phone)).records.getD []).headD ⟨"", none⟩).firstName.getD "" } := by
        simp [find_contact_or_lead, hcond, hhit]
      exact ⟨_, h1, rfl⟩
    · simp [find_contact_or_lead, hcond, hhit]
  · intro hmiss
    refine ⟨?_, ?_, ?_⟩
    · by_cases hlead :
          hasRecords (sf.leadResult (lead_query email phone)) = true <;>
        simp_all [find_contact_or_lead, hcond, hmiss]
    · intro hhit
      have h1 : (find_contact_or_lead sf email phone).1 =
          some { type := "lead",
                 id := (((sf.leadResult (lead_query email phone)).records.getD
                   []).headD ⟨"", none⟩).id,
                 first_name := (((sf.leadResult (lead_query email
                   phone)).records.getD []).headD ⟨"", none⟩).firstName.getD "" } := by
        simp [find_contact_or_lead, hcond, hmiss, hhit]
      exact ⟨_, h1, rfl⟩
    · intro hleadmiss
      simp [find_contact_or_lead, hcond, hmiss, hleadmiss]

/-- C10 witness: with a concrete oracle whose Contact query has one
record, a concrete email lookup answers a contact result and never
issues the Lead query. -/
theorem find_contact_or_lead_precedence_witness :
    (∃ r, (find_contact_or_lead
        ⟨fun _ => ⟨some [⟨"003XX000004TmiQYAS", some "John"⟩]⟩,
         fun _ => ⟨some []⟩⟩
        (some "john@example.com".toList) none).1 = some r ∧
      r.type = "contact") ∧
    (find_contact_or_lead
        ⟨fun _ => ⟨some [⟨"003XX000004TmiQYAS", some "John"⟩]⟩,
         fun _ => ⟨some []⟩⟩
        (some "john@example.com".toList) none).2 =
      [SFAction.connect,
       SFAction.queryContact (contact_query
         (some "john@example.com".toList) none)] :=
  (find_contact_or_lead_precedence
    ⟨fun _ => ⟨some [⟨"003XX000004TmiQYAS", some "John"⟩]⟩,
     fun _ => ⟨some []⟩⟩
    (some "john@example.com".toList) none (Or.inl (by decide))).1 rfl

end RevOps
